import Mathlib

/-!
Verification of the Nevada results loader (openelex/us/nv/load.py).

Python strings are modelled as `List Char`.  The helpers below model the
Python string primitives the loader uses: `str.strip`, `str.upper`,
`str.split(sep)` (with indexing modelled as `List.get?`, so an
out-of-range index — a Python `IndexError` — is `none`), the `in`
substring test, `str.replace(old, new)` for a one-character `old`, and
`int(...)` on a decimal string.
-/

/-- The whitespace characters removed by Python `str.strip()` (ASCII part). -/
def isSpace (c : Char) : Bool :=
  c = ' ' || c = '\t' || c = '\n' || c = '\x0d' || c = '\x0b' || c = '\x0c'

/-- Python `s.strip()`. -/
def pyStrip (s : List Char) : List Char :=
  ((s.dropWhile isSpace).reverse.dropWhile isSpace).reverse

/-- Python `s.upper()` (ASCII). -/
def pyUpper (s : List Char) : List Char :=
  s.map Char.toUpper

/-- Python `needle in hay` substring test. -/
def pyContains (hay needle : List Char) : Bool :=
  match hay with
  | [] => needle.isEmpty
  | _ :: t => needle.isPrefixOf hay || pyContains t needle

/-- Worker for `pySplit`.  `skip` counts separator characters still to be
consumed after a match; `acc` is the current chunk, reversed. -/
def splitAux (sep : List Char) : List Char → Nat → List Char → List (List Char)
  | [], _, acc => [acc.reverse]
  | _ :: t, Nat.succ k, acc => splitAux sep t k acc
  | c :: t, 0, acc =>
    if sep.isPrefixOf (c :: t) then
      acc.reverse :: splitAux sep t (sep.length - 1) []
    else
      splitAux sep t 0 (c :: acc)

/-- Python `s.split(sep)` for a non-empty separator: leftmost,
non-overlapping occurrences; empty chunks are kept. -/
def pySplit (sep s : List Char) : List (List Char) :=
  splitAux sep s 0 []

/-- Python `s.replace(old, new)` when `old` is a single character. -/
def pyReplaceChar (s : List Char) (old : Char) (new : List Char) : List Char :=
  match s with
  | [] => []
  | c :: t => (if c = old then new else [c]) ++ pyReplaceChar t old new

/-- Decimal value of a digit string. -/
def digitsToNat (s : List Char) : Nat :=
  s.foldl (fun n c => n * 10 + (c.toNat - '0'.toNat)) 0

/-- Python `int(s)` on a base-10 string: surrounding whitespace is
tolerated, an optional sign is followed by at least one digit; anything
else raises `ValueError`, modelled as `none`. -/
def pyInt (s : List Char) : Option Int :=
  match pyStrip s with
  | [] => none
  | c :: ds =>
    if c = '-' then
      if ds ≠ [] ∧ ds.all Char.isDigit then some (-(digitsToNat ds : Int)) else none
    else if c = '+' then
      if ds ≠ [] ∧ ds.all Char.isDigit then some ((digitsToNat ds : Int)) else none
    else
      if (c :: ds).all Char.isDigit then some ((digitsToNat (c :: ds) : Int)) else none

/-!  Specification-side descriptions of substring extraction, written
directly from the natural-language phrases ("the text before the first
occurrence of …", "the text after the first occurrence of …"), to be
related to the `pySplit`-based code by the bridging lemmas below. -/

/-- The text of `s` strictly before the first occurrence of `sep`
(all of `s` when `sep` does not occur). -/
def beforeFirst (sep : List Char) : List Char → List Char
  | [] => []
  | c :: t => if sep.isPrefixOf (c :: t) then [] else c :: beforeFirst sep t

/-- The text of `s` strictly after the first occurrence of `sep`, or
`none` when `sep` does not occur. -/
def afterFirst (sep : List Char) : List Char → Option (List Char)
  | [] => none
  | c :: t => if sep.isPrefixOf (c :: t) then some ((c :: t).drop sep.length) else afterFirst sep t

/-- Total version of `afterFirst` (defaulting to `[]`). -/
def specAfter (sep s : List Char) : List Char :=
  (afterFirst sep s).getD []

/-- The segment of `s` between the first and the second occurrence of
`sep` (to the end when there is no second occurrence): this is what
Python `s.split(sep)[1]` yields when `sep` occurs in `s`. -/
def specSegment1 (sep s : List Char) : List Char :=
  beforeFirst sep (specAfter sep s)

/-!  Embedding of `openelex/us/nv/load.py`. -/

/-- The result of `NVBaseLoader._build_contest_kwargs`. -/
structure ContestKwargs where
  office : List Char
  district : Option (List Char)
  primary_party : Option (List Char)
  party : Option (List Char)
deriving DecidableEq

/-- `NVBaseLoader.target_offices`. -/
def target_offices : List (List Char) :=
  [ ("PRESIDENT AND VICE PRESIDENT OF THE UNITED STATES").data,
    ("PRESIDENT").data,
    ("UNITED STATES SENATOR").data,
    ("U.S. REPRESENTATIVE IN CONGRESS").data,
    ("GOVERNOR").data,
    ("LIEUTENANT GOVERNOR").data,
    ("SECRETARY OF STATE").data,
    ("STATE TREASURER").data,
    ("STATE CONTROLLER").data,
    ("ATTORNEY GENERAL").data,
    ("STATE SENATE").data,
    ("STATE ASSEMBLY").data ]

/-- `NVBaseLoader._build_contest_kwargs(row)`.  `election` is
`self.mapping["election"]` and `office_field` is `row["office"]`.
Each Python list indexing `[i]` is `List.get? i`, so an `IndexError`
makes the whole computation `none`. -/
def build_contest_kwargs (election office_field : List Char) : Option ContestKwargs :=
  if pyContains election ("primary").data then
    ((pySplit ['('] office_field).get? 0).bind fun a =>
    ((pySplit (", ").data a).get? 0).bind fun b =>
    ((pySplit ['('] (pyStrip office_field)).get? 1).bind fun p1 =>
    ((pySplit [')'] p1).get? 0).bind fun pp =>
    (if pyContains (pyUpper office_field) ("DISTRICT").data then
       ((pySplit (", ").data office_field).get? 1).bind fun d1 =>
       ((pySplit (" (").data d1).get? 0).bind fun d2 =>
       some (some (pyStrip d2))
     else some none).bind fun district =>
    some { office := pyStrip b, district := district,
           primary_party := some pp, party := some pp }
  else
    if pyContains (pyUpper office_field) ("DISTRICT").data then
      ((pySplit (", ").data office_field).get? 1).bind fun d1 =>
      ((pySplit (", ").data office_field).get? 0).bind fun o1 =>
      some { office := pyStrip o1, district := some (pyStrip d1),
             primary_party := none, party := none }
    else
      some { office := pyStrip office_field, district := none,
             primary_party := none, party := none }

/-- `NVBaseLoader._build_candidate_kwargs(row)`: the trimmed candidate name. -/
def build_candidate_kwargs (candidate_field : List Char) : List Char :=
  pyStrip candidate_field

/-- `NVPrecinctLoader._skip_row(row)`:
`row["office"].split(",")[0].strip().upper() not in self.target_offices`. -/
def NVPrecinctLoader_skip_row (office_field : List Char) : Option Bool :=
  ((pySplit [','] office_field).get? 0).bind fun a =>
  some (!(target_offices.contains (pyUpper (pyStrip a))))

/-- `NVCountyLoader._skip_row(row)` (textually identical to the precinct one). -/
def NVCountyLoader_skip_row (office_field : List Char) : Option Bool :=
  ((pySplit [','] office_field).get? 0).bind fun a =>
  some (!(target_offices.contains (pyUpper (pyStrip a))))

/-- A vote count in a normalized record: an integer, or the literal
sentinel string "N/A" used by the precinct loader for blank fields. -/
inductive Votes where
  | num : Int → Votes
  | na : Votes
deriving DecidableEq

/-- Vote parsing in `NVPrecinctLoader.load`: a blank `votes` field gives
the "N/A" sentinel, otherwise `int(row["votes"].replace(",", "").strip())`. -/
def parse_votes_precinct (votes : List Char) : Option Votes :=
  if pyStrip votes = [] then some Votes.na
  else (pyInt (pyStrip (pyReplaceChar votes ',' []))).map Votes.num

/-- Vote parsing in `NVCountyLoader.load`:
`int(row["votes"].replace(",", "").strip())`, with no blank-field tolerance. -/
def parse_votes_county (votes : List Char) : Option Int :=
  pyInt (pyStrip (pyReplaceChar votes ',' []))

/-- Modelled from the spec: `openelex.lib.text.ocd_type_id` (and the
`slugify` it relies on) is not under `src/`; per the spec the precinct
sub-segment is "derived from a slugification of the jurisdiction name
(non-alphanumeric characters replaced/removed per a stable slugify
rule)".  We model it as lowercasing and replacing every
non-alphanumeric character with an underscore. -/
def ocd_type_id (s : List Char) : List Char :=
  (s.map Char.toLower).map (fun c => if c.isAlphanum then c else '_')

/-- One CSV row, with the fields the loaders read. -/
structure Row where
  office : List Char
  candidate : List Char
  party : List Char
  votes : List Char
  precinct : List Char
deriving DecidableEq

/-- The per-election mapping handed to `LoadResults.run` and stored as
`self.mapping` by the loaders. -/
structure Mapping where
  election : List Char
  ocd_id : List Char
  name : List Char
  raw_url : List Char
  pre_processed_url : List Char
deriving DecidableEq

/-- The fields of a `RawResult` that the Nevada loaders set per row. -/
structure RawResultRec where
  reporting_level : List Char
  office : List Char
  district : Option (List Char)
  primary_party : Option (List Char)
  party : Option (List Char)
  full_name : List Char
  jurisdiction : List Char
  ocd_id : List Char
  votes : Votes
deriving DecidableEq

/-- The per-row body of `NVPrecinctLoader.load`: contest kwargs, then
candidate kwargs, then jurisdiction, vote count and the ocd id. -/
def build_result_precinct (m : Mapping) (r : Row) : Option RawResultRec :=
  (build_contest_kwargs m.election r.office).bind fun ck =>
  (parse_votes_precinct r.votes).bind fun votes =>
  some { reporting_level := ("precinct").data,
         office := ck.office, district := ck.district,
         primary_party := ck.primary_party, party := ck.party,
         full_name := build_candidate_kwargs r.candidate,
         jurisdiction := pyStrip r.precinct,
         ocd_id := m.ocd_id ++ ("/precinct:").data ++ ocd_type_id (pyStrip r.precinct),
         votes := votes }

/-- The per-row body of `NVCountyLoader.load`: contest kwargs, candidate
kwargs, the party cleanup, jurisdiction from the mapping and the
mandatory integer vote count. -/
def build_result_county (m : Mapping) (r : Row) : Option RawResultRec :=
  (build_contest_kwargs m.election r.office).bind fun ck =>
  (parse_votes_county r.votes).bind fun votes =>
  some { reporting_level := ("county").data,
         office := ck.office, district := ck.district,
         primary_party := ck.primary_party,
         party := if r.party ≠ [] ∧ r.party ≠ ("&nbsp;").data
                  then some (pyStrip r.party) else none,
         full_name := build_candidate_kwargs r.candidate,
         jurisdiction := m.name,
         ocd_id := m.ocd_id,
         votes := Votes.num votes }

/-- The row loop of `NVPrecinctLoader.load`: skip filtered rows, build a
record for the others; any per-row failure (a Python exception) aborts
the whole run with `none`. -/
def NVPrecinctLoader_load (m : Mapping) : List Row → Option (List RawResultRec)
  | [] => some []
  | r :: rs =>
    (NVPrecinctLoader_skip_row r.office).bind fun skip =>
    if skip then NVPrecinctLoader_load m rs
    else
      (build_result_precinct m r).bind fun x =>
      (NVPrecinctLoader_load m rs).bind fun rest =>
      some (x :: rest)

/-- The row loop of `NVCountyLoader.load`. -/
def NVCountyLoader_load (m : Mapping) : List Row → Option (List RawResultRec)
  | [] => some []
  | r :: rs =>
    (NVCountyLoader_skip_row r.office).bind fun skip =>
    if skip then NVCountyLoader_load m rs
    else
      (build_result_county m r).bind fun x =>
      (NVCountyLoader_load m rs).bind fun rest =>
      some (x :: rest)

/-- The bulk-insert calls `RawResult.objects.insert(results)` made by a
precinct load run: exactly one, with the accumulated batch, when every
row was processed; none at all when the run aborted mid-file. -/
def NVPrecinctLoader_run_inserts (m : Mapping) (rows : List Row) : List (List RawResultRec) :=
  match NVPrecinctLoader_load m rows with
  | some batch => [batch]
  | none => []

/-- The bulk-insert calls made by a county load run. -/
def NVCountyLoader_run_inserts (m : Mapping) (rows : List Row) : List (List RawResultRec) :=
  match NVCountyLoader_load m rows with
  | some batch => [batch]
  | none => []

/-- The three loader classes `LoadResults.run` can instantiate. -/
inductive LoaderKind where
  | xml
  | precinct
  | county
deriving DecidableEq

/-- The dispatch logic of `LoadResults.run`: `election_id` is
`mapping["pre_processed_url"]`; the XML loader is chosen when
`mapping["raw_url"]` is a non-empty string, else the precinct loader
when `election_id` contains "precinct", else the county loader. -/
def LoadResults_run_select (m : Mapping) : LoaderKind :=
  let election_id := m.pre_processed_url
  if m.raw_url ≠ [] then LoaderKind.xml
  else if pyContains election_id ("precinct").data then LoaderKind.precinct
  else LoaderKind.county

/-- The failure `NVXmlLoader` surfaces when run. -/
inductive LoadError where
  | notImplemented
deriving DecidableEq

/-- Modelled from the spec: `openelex.base.load.BaseLoader` is not under
`src/`; per the spec the unimplemented XML path "must surface as an
explicit \x22not implemented\x22 failure, not a silent no-op", i.e. the
inherited `load` raises `NotImplementedError`. -/
def BaseLoader_load : Except LoadError Unit :=
  Except.error LoadError.notImplemented

/-- `NVXmlLoader` has an empty body, so running it falls through to the
inherited `BaseLoader.load`. -/
def NVXmlLoader_load : Except LoadError Unit :=
  BaseLoader_load

/-- Filtered-then-mapped batch: the normalized records of the
non-skipped rows in input order, `none` as soon as one of them fails. -/
def mapOrFail (f : α → Option β) : List α → Option (List β)
  | [] => some []
  | a :: l => (f a).bind fun b => (mapOrFail f l).bind fun bs => some (b :: bs)

/-!  Concrete fixtures used by the witness theorems below. -/

/-- A non-primary election mapping. -/
def mGeneral : Mapping :=
  { election := ("nv-2010-general").data, ocd_id := ("ocd").data,
    name := ("Clark").data, raw_url := [],
    pre_processed_url := ("nv-2010-general").data }

/-- A simple row for a tracked office. -/
def rGov : Row :=
  { office := ("GOVERNOR").data, candidate := ("A").data,
    party := ("REP").data, votes := ("1").data, precinct := (" P1 ").data }

/-- The record the precinct loader builds from `rGov` under `mGeneral`. -/
def recPrecinctGov : RawResultRec :=
  { reporting_level := ("precinct").data, office := ("GOVERNOR").data,
    district := none, primary_party := none, party := none,
    full_name := ("A").data, jurisdiction := ("P1").data,
    ocd_id := ("ocd/precinct:p1").data, votes := Votes.num 1 }

/-- The record the county loader builds from `rGov` under `mGeneral`. -/
def recCountyGov : RawResultRec :=
  { reporting_level := ("county").data, office := ("GOVERNOR").data,
    district := none, primary_party := none, party := some (("REP").data),
    full_name := ("A").data, jurisdiction := ("Clark").data,
    ocd_id := ("ocd").data, votes := Votes.num 1 }

/-!  Bridging lemmas: relating `pySplit` indexing to the
specification-side `beforeFirst` / `afterFirst` descriptions, and basic
facts about `pyStrip`, `pyContains`, `pyReplaceChar` and `pyInt`. -/

theorem splitAux_skip (sep : List Char) :
    ∀ (t : List Char) (k : Nat) (acc : List Char),
      splitAux sep t k acc = splitAux sep (t.drop k) 0 acc := by
  intro t
  induction t with
  | nil => intro k acc; cases k <;> rfl
  | cons c t ih =>
    intro k acc
    cases k with
    | zero => rfl
    | succ k => simpa [splitAux] using ih k acc

theorem beforeFirst_of_not_contains {sep s : List Char}
    (h : pyContains s sep = false) : beforeFirst sep s = s := by
  induction s with
  | nil => rfl
  | cons c t ih =>
    simp only [pyContains, Bool.or_eq_false_iff] at h
    simp [beforeFirst, h.1, ih h.2]

theorem splitAux_not_contains (sep : List Char) :
    ∀ {s : List Char}, pyContains s sep = false →
      ∀ acc, splitAux sep s 0 acc = [acc.reverse ++ s] := by
  intro s
  induction s with
  | nil => intro _ acc; simp [splitAux]
  | cons c t ih =>
    intro h acc
    simp only [pyContains, Bool.or_eq_false_iff] at h
    simp [splitAux, h.1, ih h.2]

theorem splitAux_contains (sep : List Char) (hsep : sep ≠ []) :
    ∀ {s : List Char}, pyContains s sep = true →
      ∀ acc, splitAux sep s 0 acc =
        (acc.reverse ++ beforeFirst sep s) :: splitAux sep (specAfter sep s) 0 [] := by
  intro s
  induction s with
  | nil =>
    intro h
    simp only [pyContains, List.isEmpty_iff] at h
    exact absurd h hsep
  | cons c t ih =>
    intro h acc
    by_cases hp : sep.isPrefixOf (c :: t) = true
    · obtain ⟨c0, sep'⟩ := sep
      · exact absurd rfl hsep
      · simp only [splitAux, hp, if_pos, beforeFirst, specAfter, afterFirst,
          List.append_nil, List.length_cons, Nat.add_sub_cancel, Option.getD_some,
          List.drop_succ_cons]
        rw [splitAux_skip]
    · have hpb : sep.isPrefixOf (c :: t) = false := by
        exact Bool.not_eq_true _ ▸ (by simpa using hp)
      simp only [pyContains, hpb, Bool.false_or] at h
      simp only [splitAux, hpb, Bool.false_eq_true, if_false, beforeFirst,
        specAfter, afterFirst]
      rw [ih h]
      simp [specAfter]

theorem pySplit_get0 (sep : List Char) (hsep : sep ≠ []) (s : List Char) :
    (pySplit sep s).get? 0 = some (beforeFirst sep s) := by
  by_cases hc : pyContains s sep = true
  · rw [pySplit, splitAux_contains sep hsep hc]
    simp
  · have hc' : pyContains s sep = false := by simpa using hc
    rw [pySplit, splitAux_not_contains sep hc']
    simp [beforeFirst_of_not_contains hc']

theorem pySplit_get1_pos (sep : List Char) (hsep : sep ≠ []) {s : List Char}
    (h : pyContains s sep = true) :
    (pySplit sep s).get? 1 = some (specSegment1 sep s) := by
  rw [pySplit, splitAux_contains sep hsep h]
  show (splitAux sep (specAfter sep s) 0 []).get? 0 = some (specSegment1 sep s)
  exact pySplit_get0 sep hsep (specAfter sep s)

theorem pySplit_get1_neg (sep : List Char) {s : List Char}
    (h : pyContains s sep = false) : (pySplit sep s).get? 1 = none := by
  rw [pySplit, splitAux_not_contains sep h]
  rfl

theorem mem_takeWhile_sat (p : α → Bool) :
    ∀ (s : List α) (c : α), c ∈ s.takeWhile p → p c = true := by
  intro s
  induction s with
  | nil => intro c hc; simp [List.takeWhile] at hc
  | cons a t ih =>
    intro c hc
    rw [List.takeWhile_cons] at hc
    by_cases hpa : p a = true
    · simp only [hpa, if_pos, List.mem_cons] at hc
      rcases hc with rfl | hc
      · exact hpa
      · exact ih c hc
    · simp [hpa] at hc

theorem pyStrip_decomp (s : List Char) :
    ∃ a b, s = a ++ pyStrip s ++ b ∧
      (∀ c ∈ a, isSpace c = true) ∧ (∀ c ∈ b, isSpace c = true) := by
  refine ⟨s.takeWhile isSpace,
    ((s.dropWhile isSpace).reverse.takeWhile isSpace).reverse, ?_, ?_, ?_⟩
  · have h3 : s.dropWhile isSpace =
        pyStrip s ++ ((s.dropWhile isSpace).reverse.takeWhile isSpace).reverse := by
      rw [pyStrip]
      conv_lhs => rw [← List.reverse_reverse (s.dropWhile isSpace)]
      rw [← List.reverse_append, List.takeWhile_append_dropWhile]
    conv_lhs => rw [← List.takeWhile_append_dropWhile (p := isSpace) (l := s), h3]
    rw [List.append_assoc]
  · exact fun c hc => mem_takeWhile_sat isSpace s c hc
  · intro c hc
    rw [List.mem_reverse] at hc
    exact mem_takeWhile_sat isSpace _ c hc

theorem pyStrip_all_space {s : List Char} (h : pyStrip s = []) :
    ∀ c ∈ s, isSpace c = true := by
  obtain ⟨a, b, hs, ha, hb⟩ := pyStrip_decomp s
  rw [h, List.append_nil] at hs
  intro c hc
  rw [hs, List.mem_append] at hc
  rcases hc with hc | hc
  · exact ha c hc
  · exact hb c hc

theorem mem_pyStrip {s : List Char} {c : Char} (hc : c ∈ s)
    (hns : isSpace c = false) : c ∈ pyStrip s := by
  obtain ⟨a, b, hs, ha, hb⟩ := pyStrip_decomp s
  rw [hs, List.mem_append, List.mem_append] at hc
  rcases hc with (hc | hc) | hc
  · rw [ha c hc] at hns; cases hns
  · exact hc
  · rw [hb c hc] at hns; cases hns

theorem pyStrip_isInf (s : List Char) : pyStrip s <:+: s := by
  obtain ⟨a, b, hs, _, _⟩ := pyStrip_decomp s
  exact ⟨a, b, hs.symm⟩

theorem pyContains_iff_isInf {s n : List Char} :
    pyContains s n = true ↔ n <:+: s := by
  induction s with
  | nil => simp [pyContains, List.isEmpty_iff]
  | cons c t ih =>
    simp [pyContains, List.infix_cons_iff, ih, List.isPrefixOf_iff_prefix]

theorem pyContains_single {s : List Char} {c : Char} :
    pyContains s [c] = true ↔ c ∈ s := by
  rw [pyContains_iff_isInf]
  constructor
  · intro h
    exact h.sublist.mem (List.mem_singleton_self c)
  · intro h
    obtain ⟨l₁, l₂, rfl⟩ := List.append_of_mem h
    exact ⟨l₁, l₂, by simp⟩

theorem pyContains_of_pyContains_pyStrip {s n : List Char}
    (h : pyContains (pyStrip s) n = true) : pyContains s n = true := by
  rw [pyContains_iff_isInf] at h ⊢
  exact h.trans (pyStrip_isInf s)

theorem pyContains_pyStrip_single {s : List Char} {c : Char}
    (h : pyContains s [c] = true) (hns : isSpace c = false) :
    pyContains (pyStrip s) [c] = true := by
  rw [pyContains_single] at h ⊢
  exact mem_pyStrip h hns

theorem pyReplaceChar_of_not_mem {s : List Char} {o : Char} (h : o ∉ s)
    (new : List Char) : pyReplaceChar s o new = s := by
  induction s with
  | nil => rfl
  | cons c t ih =>
    rw [List.mem_cons, not_or] at h
    have hco : ¬ c = o := fun hco => h.1 hco.symm
    simp [pyReplaceChar, hco, ih h.2]

theorem dropWhile_eq_self_of {p : α → Bool} :
    ∀ {s : List α}, (∀ c ∈ s, p c = false) → s.dropWhile p = s := by
  intro s h
  cases s with
  | nil => rfl
  | cons c t => simp [List.dropWhile_cons, h c (List.mem_cons_self c t)]

theorem pyStrip_of_no_space {s : List Char}
    (h : ∀ c ∈ s, isSpace c = false) : pyStrip s = s := by
  rw [pyStrip, dropWhile_eq_self_of h, dropWhile_eq_self_of
    (fun c hc => h c (List.mem_reverse.mp hc)), List.reverse_reverse]

theorem isSpace_of_isDigit {c : Char} (h : c.isDigit = true) :
    isSpace c = false := by
  revert h
  rw [Char.isDigit, isSpace]
  intro h
  simp only [decide_eq_true_eq, Bool.and_eq_true] at h
  simp only [Bool.or_eq_false_iff, decide_eq_false_iff_not]
  obtain ⟨h1, h2⟩ := h
  refine ⟨⟨⟨⟨⟨?_, ?_⟩, ?_⟩, ?_⟩, ?_⟩, ?_⟩ <;> rintro rfl <;> revert h1 h2 <;> decide

theorem NVPrecinctLoader_skip_row_eq (office_field : List Char) :
    NVPrecinctLoader_skip_row office_field =
      some (!(target_offices.contains
        (pyUpper (pyStrip (beforeFirst [','] office_field))))) := by
  rw [NVPrecinctLoader_skip_row, pySplit_get0 [','] (by decide) office_field,
    Option.some_bind]

theorem NVCountyLoader_skip_row_eq (office_field : List Char) :
    NVCountyLoader_skip_row office_field =
      some (!(target_offices.contains
        (pyUpper (pyStrip (beforeFirst [','] office_field))))) := by
  rw [NVCountyLoader_skip_row, pySplit_get0 [','] (by decide) office_field,
    Option.some_bind]

theorem pyInt_all_digits {s : List Char} (hne : s ≠ [])
    (hdig : s.all Char.isDigit = true) : pyInt s = some ((digitsToNat s : Int)) := by
  have hnospace : ∀ c ∈ s, isSpace c = false := fun c hc =>
    isSpace_of_isDigit (List.all_eq_true.mp hdig c hc)
  cases s with
  | nil => exact absurd rfl hne
  | cons c ds =>
    have hstrip : pyStrip (c :: ds) = c :: ds := pyStrip_of_no_space hnospace
    have hcd : c.isDigit = true :=
      List.all_eq_true.mp hdig c (List.mem_cons_self c ds)
    have hcm : ¬ c = '-' := by rintro rfl; revert hcd; decide
    have hcp : ¬ c = '+' := by rintro rfl; revert hcd; decide
    rw [pyInt, hstrip]
    simp [hcm, hcp, hdig]

theorem cleanVotes_of_all_space {v : List Char}
    (h : ∀ c ∈ v, isSpace c = true) :
    pyStrip (pyReplaceChar v ',' []) = pyStrip v := by
  have hnc : ',' ∉ v := fun hm => absurd (h ',' hm) (by decide)
  rw [pyReplaceChar_of_not_mem hnc []]


theorem NVPrecinctLoader_load_eq (m : Mapping) :
    ∀ rows : List Row,
      NVPrecinctLoader_load m rows =
        mapOrFail (build_result_precinct m)
          (rows.filter fun r =>
            decide (NVPrecinctLoader_skip_row r.office = some false)) := by
  intro rows
  induction rows with
  | nil => rfl
  | cons r rs ih =>
    rw [NVPrecinctLoader_load, NVPrecinctLoader_skip_row_eq, Option.some_bind,
      List.filter_cons]
    by_cases hb : target_offices.contains
        (pyUpper (pyStrip (beforeFirst [','] r.office))) = true
    · simp only [NVPrecinctLoader_skip_row_eq, hb, Bool.not_true,
        Option.some.injEq, decide_eq_true_eq, if_true, Bool.false_eq_true,
        if_false, mapOrFail, ih]
    · have hb' : target_offices.contains
          (pyUpper (pyStrip (beforeFirst [','] r.office))) = false := by
        simpa using hb
      simp only [NVPrecinctLoader_skip_row_eq, hb', Bool.not_false,
        Option.some.injEq, Bool.true_eq_false, decide_eq_true_eq, if_true,
        if_false, ih]

theorem NVCountyLoader_load_eq (m : Mapping) :
    ∀ rows : List Row,
      NVCountyLoader_load m rows =
        mapOrFail (build_result_county m)
          (rows.filter fun r =>
            decide (NVCountyLoader_skip_row r.office = some false)) := by
  intro rows
  induction rows with
  | nil => rfl
  | cons r rs ih =>
    rw [NVCountyLoader_load, NVCountyLoader_skip_row_eq, Option.some_bind,
      List.filter_cons]
    by_cases hb : target_offices.contains
        (pyUpper (pyStrip (beforeFirst [','] r.office))) = true
    · simp only [NVCountyLoader_skip_row_eq, hb, Bool.not_true,
        Option.some.injEq, decide_eq_true_eq, if_true, Bool.false_eq_true,
        if_false, mapOrFail, ih]
    · have hb' : target_offices.contains
          (pyUpper (pyStrip (beforeFirst [','] r.office))) = false := by
        simpa using hb
      simp only [NVCountyLoader_skip_row_eq, hb', Bool.not_false,
        Option.some.injEq, Bool.true_eq_false, decide_eq_true_eq, if_true,
        if_false, ih]

/-- C3: for every office string, the skip predicate of both the precinct
and the county loader succeeds (never raises), and returns true exactly
when the text before the first comma, trimmed and uppercased, is not in
the fixed tracked-office allow-list; this holds regardless of whether
the full office/district/party parse would succeed. -/
theorem C3_skip_row_spec (s : List Char) :
    NVPrecinctLoader_skip_row s =
      some (!(target_offices.contains (pyUpper (pyStrip (beforeFirst [','] s))))) ∧
    NVCountyLoader_skip_row s = NVPrecinctLoader_skip_row s ∧
    (NVPrecinctLoader_skip_row s = some true ↔
      pyUpper (pyStrip (beforeFirst [','] s)) ∉ target_offices) := by
  refine ⟨NVPrecinctLoader_skip_row_eq s, ?_, ?_⟩
  · rw [NVPrecinctLoader_skip_row_eq s, NVCountyLoader_skip_row_eq s]
  · rw [NVPrecinctLoader_skip_row_eq s]
    simp [List.contains]

/-- C9: building the normalized record (contest, candidate and record
assembly) is deterministic: identical rows and identical loader context
yield identical results. -/
theorem C9_deterministic (m m' : Mapping) (r r' : Row)
    (hm : m = m') (hr : r = r') :
    build_contest_kwargs m.election r.office =
      build_contest_kwargs m'.election r'.office ∧
    build_result_precinct m r = build_result_precinct m' r' ∧
    build_result_county m r = build_result_county m' r' := by
  subst hm; subst hr; exact ⟨rfl, rfl, rfl⟩

/-- C9 witness: the determinism theorem instantiated at a concrete row
and mapping. -/
theorem C9_witness :
    build_contest_kwargs mGeneral.election rGov.office =
      build_contest_kwargs mGeneral.election rGov.office ∧
    build_result_precinct mGeneral rGov = build_result_precinct mGeneral rGov ∧
    build_result_county mGeneral rGov = build_result_county mGeneral rGov :=
  C9_deterministic mGeneral mGeneral rGov rGov rfl rfl

/-- C7: the dispatcher picks the XML loader exactly when the raw URL is
non-empty, otherwise the precinct loader exactly when the election
identifier contains "precinct", otherwise the county loader; and
running the XML loader surfaces an explicit not-implemented failure. -/
theorem C7_dispatch_spec (m : Mapping) :
    (LoadResults_run_select m = LoaderKind.xml ↔ m.raw_url ≠ []) ∧
    (m.raw_url = [] →
      ((LoadResults_run_select m = LoaderKind.precinct ↔
          pyContains m.pre_processed_url ("precinct").data = true) ∧
       (LoadResults_run_select m = LoaderKind.county ↔
          pyContains m.pre_processed_url ("precinct").data = false))) ∧
    NVXmlLoader_load = Except.error LoadError.notImplemented := by
  refine ⟨?_, ?_, rfl⟩
  · rw [LoadResults_run_select]
    by_cases hr : m.raw_url = []
    · simp only [hr, ne_eq, not_true_eq_false, if_false]
      by_cases hc : pyContains m.pre_processed_url ("precinct").data = true
      · simp [hc, hr]
      · simp [hc, hr]
    · simp [hr]
  · intro hr
    rw [LoadResults_run_select]
    simp only [hr, ne_eq, not_true_eq_false, if_false]
    by_cases hc : pyContains m.pre_processed_url ("precinct").data = true
    · simp [hc]
    · have hcf : pyContains m.pre_processed_url ("precinct").data = false := by
        simpa using hc
      simp [hcf]

/-- C7 witness: the dispatch theorem instantiated at a mapping with an
empty raw URL. -/
theorem C7_witness :
    (LoadResults_run_select mGeneral = LoaderKind.precinct ↔
       pyContains mGeneral.pre_processed_url ("precinct").data = true) ∧
    (LoadResults_run_select mGeneral = LoaderKind.county ↔
       pyContains mGeneral.pre_processed_url ("precinct").data = false) :=
  (C7_dispatch_spec mGeneral).2.1 rfl

/-- C6: whenever the county loader builds a record from a row, the
record's party is the trimmed row party when that field is non-empty
and different from the literal placeholder "&nbsp;", and absent
otherwise. -/
theorem C6_county_party (m : Mapping) (r : Row) (x : RawResultRec)
    (h : build_result_county m r = some x) :
    x.party = if r.party ≠ [] ∧ r.party ≠ ("&nbsp;").data
              then some (pyStrip r.party) else none := by
  rw [build_result_county, Option.bind_eq_some] at h
  obtain ⟨ck, _, h⟩ := h
  rw [Option.bind_eq_some] at h
  obtain ⟨votes, _, h⟩ := h
  injection h with h
  rw [← h]

/-- C6 witness: the county party rule at a concrete row with party
"REP". -/
theorem C6_witness :
    recCountyGov.party =
      if rGov.party ≠ [] ∧ rGov.party ≠ ("&nbsp;").data
      then some (pyStrip rGov.party) else none :=
  C6_county_party mGeneral rGov recCountyGov (by decide)

/-- C8: whenever the precinct loader builds a record, its jurisdiction
is the trimmed precinct field and its geographic id is the base ocd id
followed by "/precinct:" and the slug id of the jurisdiction; whenever
the county loader builds a record, its jurisdiction is the county name
from the mapping and its geographic id is the base ocd id unchanged. -/
theorem C8_jurisdiction_ocd (m : Mapping) (r : Row) :
    (∀ x, build_result_precinct m r = some x →
       x.jurisdiction = pyStrip r.precinct ∧
       x.ocd_id = m.ocd_id ++ ("/precinct:").data ++ ocd_type_id (pyStrip r.precinct)) ∧
    (∀ y, build_result_county m r = some y →
       y.jurisdiction = m.name ∧ y.ocd_id = m.ocd_id) := by
  constructor
  · intro x h
    rw [build_result_precinct, Option.bind_eq_some] at h
    obtain ⟨ck, _, h⟩ := h
    rw [Option.bind_eq_some] at h
    obtain ⟨votes, _, h⟩ := h
    injection h with h
    rw [← h]
    exact ⟨rfl, rfl⟩
  · intro y h
    rw [build_result_county, Option.bind_eq_some] at h
    obtain ⟨ck, _, h⟩ := h
    rw [Option.bind_eq_some] at h
    obtain ⟨votes, _, h⟩ := h
    injection h with h
    rw [← h]
    exact ⟨rfl, rfl⟩

/-- C8 witness: jurisdiction and geographic id at a concrete precinct
row and at a concrete county row. -/
theorem C8_witness :
    (recPrecinctGov.jurisdiction = pyStrip rGov.precinct ∧
     recPrecinctGov.ocd_id =
       mGeneral.ocd_id ++ ("/precinct:").data ++ ocd_type_id (pyStrip rGov.precinct)) ∧
    (recCountyGov.jurisdiction = mGeneral.name ∧
     recCountyGov.ocd_id = mGeneral.ocd_id) :=
  ⟨(C8_jurisdiction_ocd mGeneral rGov).1 recPrecinctGov (by decide),
   (C8_jurisdiction_ocd mGeneral rGov).2 recCountyGov (by decide)⟩

/-- C5: a load run (either level) processes exactly the non-skipped rows
in input order, failing as a whole as soon as one of them fails; it
makes at most one bulk-insert call, exactly one — with the full batch —
when every row was processed, and none at all when any row failed. -/
theorem C5_single_batch (m : Mapping) (rows : List Row) :
    NVPrecinctLoader_load m rows =
      mapOrFail (build_result_precinct m)
        (rows.filter fun r =>
          decide (NVPrecinctLoader_skip_row r.office = some false)) ∧
    NVCountyLoader_load m rows =
      mapOrFail (build_result_county m)
        (rows.filter fun r =>
          decide (NVCountyLoader_skip_row r.office = some false)) ∧
    (NVPrecinctLoader_run_inserts m rows).length ≤ 1 ∧
    (NVCountyLoader_run_inserts m rows).length ≤ 1 ∧
    (∀ b, NVPrecinctLoader_load m rows = some b →
       NVPrecinctLoader_run_inserts m rows = [b]) ∧
    (∀ b, NVCountyLoader_load m rows = some b →
       NVCountyLoader_run_inserts m rows = [b]) ∧
    (NVPrecinctLoader_load m rows = none →
       NVPrecinctLoader_run_inserts m rows = []) ∧
    (NVCountyLoader_load m rows = none →
       NVCountyLoader_run_inserts m rows = []) := by
  refine ⟨NVPrecinctLoader_load_eq m rows, NVCountyLoader_load_eq m rows,
    ?_, ?_, ?_, ?_, ?_, ?_⟩
  · rw [NVPrecinctLoader_run_inserts]
    cases NVPrecinctLoader_load m rows <;> simp
  · rw [NVCountyLoader_run_inserts]
    cases NVCountyLoader_load m rows <;> simp
  · intro b hb; rw [NVPrecinctLoader_run_inserts, hb]
  · intro b hb; rw [NVCountyLoader_run_inserts, hb]
  · intro hb; rw [NVPrecinctLoader_run_inserts, hb]
  · intro hb; rw [NVCountyLoader_run_inserts, hb]

/-- C5 witness: a one-row input at both levels yields exactly one insert
call carrying that row's record. -/
theorem C5_witness :
    NVPrecinctLoader_run_inserts mGeneral [rGov] = [[recPrecinctGov]] ∧
    NVCountyLoader_run_inserts mGeneral [rGov] = [[recCountyGov]] :=
  ⟨(C5_single_batch mGeneral [rGov]).2.2.2.2.1 [recPrecinctGov] (by decide),
   (C5_single_batch mGeneral [rGov]).2.2.2.2.2.1 [recCountyGov] (by decide)⟩

/-- C4: vote-count normalization.  A votes string whose comma-free,
trimmed remainder is a digit string parses to that decimal integer at
both reporting levels; a votes string that is blank after trimming
yields the "N/A" sentinel at precinct level but a parse failure at
county level; a non-numeric remainder is a parse failure at both
levels. -/
theorem C4_votes_spec (v : List Char) :
    (pyStrip (pyReplaceChar v ',' []) ≠ [] →
     (pyStrip (pyReplaceChar v ',' [])).all Char.isDigit = true →
       parse_votes_precinct v =
         some (Votes.num ((digitsToNat (pyStrip (pyReplaceChar v ',' [])) : Int))) ∧
       parse_votes_county v =
         some ((digitsToNat (pyStrip (pyReplaceChar v ',' [])) : Int))) ∧
    (pyStrip v = [] →
       parse_votes_precinct v = some Votes.na ∧ parse_votes_county v = none) ∧
    (pyInt (pyStrip (pyReplaceChar v ',' [])) = none →
       parse_votes_county v = none ∧
       (pyStrip v ≠ [] → parse_votes_precinct v = none)) := by
  refine ⟨?_, ?_, ?_⟩
  · intro hne hdig
    have hint : pyInt (pyStrip (pyReplaceChar v ',' [])) =
        some ((digitsToNat (pyStrip (pyReplaceChar v ',' [])) : Int)) :=
      pyInt_all_digits hne hdig
    have hsv : pyStrip v ≠ [] := by
      intro hsv
      apply hne
      rw [cleanVotes_of_all_space (pyStrip_all_space hsv), hsv]
    refine ⟨?_, hint⟩
    rw [parse_votes_precinct, if_neg hsv, hint]
    rfl
  · intro hsv
    refine ⟨by rw [parse_votes_precinct, if_pos hsv], ?_⟩
    rw [parse_votes_county, cleanVotes_of_all_space (pyStrip_all_space hsv), hsv]
    rfl
  · intro hint
    refine ⟨hint, fun hsv => ?_⟩
    rw [parse_votes_precinct, if_neg hsv, hint]
    rfl

/-- C4 witness: the comma-separated string "1,234" parses to 1234 at
both levels; the blank string gives the sentinel at precinct level and
fails at county level; "x" fails at both levels. -/
theorem C4_witness :
    (parse_votes_precinct (("1,234").data) = some (Votes.num 1234) ∧
     parse_votes_county (("1,234").data) = some 1234) ∧
    (parse_votes_precinct [] = some Votes.na ∧ parse_votes_county [] = none) ∧
    (parse_votes_county (("x").data) = none ∧
     parse_votes_precinct (("x").data) = none) := by
  have h1 := (C4_votes_spec (("1,234").data)).1 (by decide) (by decide)
  have h2 := (C4_votes_spec ([] : List Char)).2.1 (by decide)
  have h3 := (C4_votes_spec (("x").data)).2.2 (by decide)
  exact ⟨⟨h1.1.trans (by decide), h1.2.trans (by decide)⟩, h2,
    ⟨h3.1, h3.2 (by decide)⟩⟩

/-- C1 counterexample: on the primary row "GOVERNOR ( DEM)" the code
yields primary_party " DEM", not the trimmed inner text "DEM" the claim
states; and on "GOVERNOR (A(B) C)" the code yields "A", not the full
text "A(B" strictly inside the first parentheses. -/
theorem C1_counterexample :
    build_contest_kwargs (("2010-primary").data) (("GOVERNOR ( DEM)").data) =
      some { office := ("GOVERNOR").data, district := none,
             primary_party := some ((" DEM").data),
             party := some ((" DEM").data) } ∧
    (" DEM").data ≠
      pyStrip (beforeFirst [')'] (specAfter ['('] (pyStrip (("GOVERNOR ( DEM)").data)))) ∧
    build_contest_kwargs (("2010-primary").data) (("GOVERNOR (A(B) C)").data) =
      some { office := ("GOVERNOR").data, district := none,
             primary_party := some (("A").data), party := some (("A").data) } ∧
    ("A").data ≠
      pyStrip (beforeFirst [')'] (specAfter ['('] (pyStrip (("GOVERNOR (A(B) C)").data)))) := by
  decide

/-- C1 (amended): for every primary row whose office text contains "("
— and, when its uppercased text contains "DISTRICT", also contains
", " — the parse returns: office = the text before the first "(" and
before any ", ", trimmed; primary_party (and party) = the text of the
whitespace-trimmed office string after its first "(" and before the
next "(" or ")", taken verbatim (not re-trimmed); district = the
split-segment after the first ", " (up to the next ", "), truncated
before " (" and trimmed, when "DISTRICT" occurs, else absent. -/
theorem C1_primary_parse (election s : List Char)
    (hp : pyContains election ("primary").data = true)
    (hpar : pyContains s ['('] = true)
    (hdc : pyContains (pyUpper s) ("DISTRICT").data = true →
      pyContains s (", ").data = true) :
    build_contest_kwargs election s =
      some { office := pyStrip (beforeFirst ((", ").data) (beforeFirst ['('] s)),
             district := if pyContains (pyUpper s) ("DISTRICT").data = true
                         then some (pyStrip (beforeFirst ((" (").data)
                           (specSegment1 ((", ").data) s)))
                         else none,
             primary_party := some (beforeFirst [')']
               (specSegment1 ['('] (pyStrip s))),
             party := some (beforeFirst [')']
               (specSegment1 ['('] (pyStrip s))) } := by
  have hps : pyContains (pyStrip s) ['('] = true :=
    pyContains_pyStrip_single hpar (by decide)
  rw [build_contest_kwargs, if_pos hp,
    pySplit_get0 ['('] (by decide), Option.some_bind,
    pySplit_get0 ((", ").data) (by decide), Option.some_bind,
    pySplit_get1_pos ['('] (by decide) hps, Option.some_bind,
    pySplit_get0 [')'] (by decide), Option.some_bind]
  by_cases hd : pyContains (pyUpper s) ("DISTRICT").data = true
  · rw [if_pos hd, pySplit_get1_pos ((", ").data) (by decide) (hdc hd),
      Option.some_bind, pySplit_get0 ((" (").data) (by decide),
      Option.some_bind, Option.some_bind, if_pos hd]
  · rw [if_neg hd, Option.some_bind, if_neg hd]

/-- C1 witness: the amended primary parse at a concrete well-formed
district row. -/
theorem C1_witness :
    build_contest_kwargs (("2004-primary").data)
        (("STATE SENATE, DISTRICT 1 (DEM)").data) =
      some { office := ("STATE SENATE").data,
             district := some (("DISTRICT 1").data),
             primary_party := some (("DEM").data),
             party := some (("DEM").data) } := by
  have h := C1_primary_parse (("2004-primary").data)
    (("STATE SENATE, DISTRICT 1 (DEM)").data) (by decide) (by decide) (by decide)
  rw [h]
  decide

/-- C2 counterexample: on the non-primary row
"STATE SENATE, DISTRICT 1, X" the code yields district "DISTRICT 1"
(the segment between the first and second ", "), not the full trimmed
text "DISTRICT 1, X" after the first ", " as the claim states. -/
theorem C2_counterexample :
    build_contest_kwargs (("2010-general").data)
        (("STATE SENATE, DISTRICT 1, X").data) =
      some { office := ("STATE SENATE").data,
             district := some (("DISTRICT 1").data),
             primary_party := none, party := none } ∧
    ("DISTRICT 1").data ≠
      pyStrip (specAfter ((", ").data) (("STATE SENATE, DISTRICT 1, X").data)) := by
  decide

/-- C2 (amended): for every non-primary row whose uppercased office text
contains "DISTRICT" (and contains ", "), the parse returns office = the
text before the first ", ", trimmed, and district = the split-segment
after the first ", " and before the next ", ", trimmed; without
"DISTRICT" the office is the whole trimmed text and district is absent;
primary_party and party are absent in both cases. -/
theorem C2_nonprimary_parse (election s : List Char)
    (hp : pyContains election ("primary").data = false)
    (hdc : pyContains (pyUpper s) ("DISTRICT").data = true →
      pyContains s (", ").data = true) :
    build_contest_kwargs election s =
      some { office := if pyContains (pyUpper s) ("DISTRICT").data = true
                       then pyStrip (beforeFirst ((", ").data) s)
                       else pyStrip s,
             district := if pyContains (pyUpper s) ("DISTRICT").data = true
                         then some (pyStrip (specSegment1 ((", ").data) s))
                         else none,
             primary_party := none, party := none } := by
  rw [build_contest_kwargs,
    if_neg (show ¬ pyContains election ("primary").data = true by simp [hp])]
  by_cases hd : pyContains (pyUpper s) ("DISTRICT").data = true
  · rw [if_pos hd, pySplit_get1_pos ((", ").data) (by decide) (hdc hd),
      Option.some_bind, pySplit_get0 ((", ").data) (by decide),
      Option.some_bind, if_pos hd, if_pos hd]
  · rw [if_neg hd, if_neg hd, if_neg hd]

/-- C2 witness: the amended non-primary parse at a concrete district
row. -/
theorem C2_witness :
    build_contest_kwargs (("nv-2010-general").data)
        (("STATE SENATE, DISTRICT 5").data) =
      some { office := ("STATE SENATE").data,
             district := some (("DISTRICT 5").data),
             primary_party := none, party := none } := by
  have h := C2_nonprimary_parse (("nv-2010-general").data)
    (("STATE SENATE, DISTRICT 5").data) (by decide) (by decide)
  rw [h]
  decide

/-- C10: primary-mode office parsing is partial.  For every primary row
whose office text contains no "(", and for every primary row whose
uppercased office text contains "DISTRICT" but no ", " separator, the
contest-field extraction fails with an out-of-range indexing error
(modelled as `none`). -/
theorem C10_primary_parse_fails (election s : List Char)
    (hp : pyContains election ("primary").data = true) :
    (pyContains s ['('] = false → build_contest_kwargs election s = none) ∧
    (pyContains (pyUpper s) ("DISTRICT").data = true →
      pyContains s ((", ").data) = false →
      build_contest_kwargs election s = none) := by
  have part1 : pyContains s ['('] = false → build_contest_kwargs election s = none := by
    intro hnp
    have hnps : pyContains (pyStrip s) ['('] = false := by
      cases hx : pyContains (pyStrip s) ['(']
      · rfl
      · exact absurd (pyContains_of_pyContains_pyStrip hx) (by simp [hnp])
    rw [build_contest_kwargs, if_pos hp,
      pySplit_get0 ['('] (by decide), Option.some_bind,
      pySplit_get0 ((", ").data) (by decide), Option.some_bind,
      pySplit_get1_neg ['('] hnps]
    rfl
  refine ⟨part1, ?_⟩
  intro hd hnc
  by_cases hpar : pyContains s ['('] = true
  · have hps : pyContains (pyStrip s) ['('] = true :=
      pyContains_pyStrip_single hpar (by decide)
    rw [build_contest_kwargs, if_pos hp,
      pySplit_get0 ['('] (by decide), Option.some_bind,
      pySplit_get0 ((", ").data) (by decide), Option.some_bind,
      pySplit_get1_pos ['('] (by decide) hps, Option.some_bind,
      pySplit_get0 [')'] (by decide), Option.some_bind,
      if_pos hd, pySplit_get1_neg ((", ").data) hnc]
    rfl
  · exact part1 (by simpa using hpar)

/-- C10 witness: both failure modes are reachable — a primary office
with no parenthesis, and a primary district office with no ", ". -/
theorem C10_witness :
    build_contest_kwargs (("2004-primary").data) (("GOVERNOR").data) = none ∧
    build_contest_kwargs (("2004-primary").data)
      (("STATE SENATE DISTRICT 1 (REP)").data) = none :=
  ⟨(C10_primary_parse_fails (("2004-primary").data) (("GOVERNOR").data)
      (by decide)).1 (by decide),
   (C10_primary_parse_fails (("2004-primary").data)
      (("STATE SENATE DISTRICT 1 (REP)").data) (by decide)).2
      (by decide) (by decide)⟩
